/-
Verification of the per-camera capture-and-decision core of the Projeto-CAM
repository (src/app/camera_worker.py together with the worker-facing routes
in src/app/routes.py and the tunables in src/app/config.py).

The worker state, the recording operations, the motion-detection pipeline and
one iteration of CameraWorker.run are embedded as pure Lean functions.  The
OpenCV primitives whose numeric behaviour the code does not determine
(grayscale conversion, Gaussian blur, contour extraction, contour area,
bounding rectangles, rectangle drawing, the placeholder frame) are kept
abstract as fields of a CV structure; the primitives whose behaviour the code
does fix (absolute difference, binary thresholding at 30) are defined
concretely per pixel.  External inputs of an iteration (the frame read, the
wall-clock time, the object-detector result) are passed in explicitly.
-/
import Mathlib

set_option linter.unusedVariables false

/-- A colour (BGR, 8-bit) image, as a total pixel map row → col → pixel. -/
def Image : Type := Nat → Nat → Nat × Nat × Nat

/-- A single-channel grayscale image, row → col → intensity. -/
def GrayImage : Type := Nat → Nat → Nat

/-- A contour as returned by cv2.findContours: a list of boundary points. -/
def Contour : Type := List (Nat × Nat)

/-- A bounding rectangle (x, y, w, h) as returned by cv2.boundingRect. -/
def Rect : Type := Nat × Nat × Nat × Nat

/-- One object reported by ObjectDetector.detect: its class name and
confidence (`obj['class']`, `obj['confidence']`). -/
structure DetObj where
  cls : String
  confidence : ℚ
deriving DecidableEq

/-- The OpenCV primitives used by camera_worker.py whose pixel-level
behaviour the repository does not itself define.  They are abstract
parameters of the embedding. -/
structure CV where
  /-- cv2.cvtColor(·, cv2.COLOR_BGR2GRAY) -/
  cvtColorGray : Image → GrayImage
  /-- cv2.GaussianBlur(·, (21, 21), 0) -/
  gaussianBlur21 : GrayImage → GrayImage
  /-- cv2.findContours(·, cv2.RETR_EXTERNAL, cv2.CHAIN_APPROX_SIMPLE) -/
  findContoursExt : GrayImage → List Contour
  /-- cv2.contourArea -/
  contourArea : Contour → ℚ
  /-- cv2.boundingRect -/
  boundingRect : Contour → Rect
  /-- cv2.rectangle(img, (x,y), (x+w,y+h), (0,255,0), 2) for a rect (x,y,w,h) -/
  rectangle : Image → Rect → Image
  /-- create_no_camera_frame (camera_worker.py lines 51-108) -/
  create_no_camera_frame : String → Image

/-- cv2.absdiff on 8-bit images: per-pixel absolute difference. -/
def absdiff (a b : GrayImage) : GrayImage :=
  fun r c => max (a r c) (b r c) - min (a r c) (b r c)

/-- cv2.threshold(·, 30, 255, cv2.THRESH_BINARY)[1]: pixels strictly greater
than 30 become 255, the rest 0. -/
def threshold30 (d : GrayImage) : GrayImage :=
  fun r c => if 30 < d r c then 255 else 0

/-- The tunables of src/app/config.py used by the worker. -/
structure Config where
  /-- PASTA_GRAVACOES -/
  pasta_gravacoes : String
  /-- MOTION_COOLDOWN -/
  motion_cooldown : ℚ
  /-- MIN_CONTOUR_AREA -/
  min_contour_area : ℚ
  /-- AUTO_RECORD_ON_OBJECTS (None or a list of class names) -/
  auto_record_on_objects : Option (List String)

/-- The default values assigned in src/app/config.py lines 29-67. -/
def defaultConfig : Config :=
  { pasta_gravacoes := "gravacoes"
    motion_cooldown := 5
    min_contour_area := 500
    auto_record_on_objects := none }

/-- A cv2.VideoWriter bound to its output file, together with the frames
written to it so far. -/
structure VideoWriter where
  file : String
  frames : List Image

/-- The mutable per-worker state of CameraWorker (fields set in __init__,
camera_worker.py lines 200-241). -/
structure WorkerState where
  /-- self.output_frame: the last published annotated frame. -/
  output_frame : Option Image
  /-- self.is_recording -/
  is_recording : Bool
  /-- self.video_writer -/
  video_writer : Option VideoWriter
  /-- self.motion_detection_enabled -/
  motion_detection_enabled : Bool
  /-- self.static_background -/
  static_background : Option GrayImage
  /-- self.last_motion_time -/
  last_motion_time : ℚ
  /-- self.object_detection_enabled -/
  object_detection_enabled : Bool
  /-- self.object_detector (present or None) -/
  object_detector_present : Bool
  /-- self.last_detection_time -/
  last_detection_time : ℚ
  /-- self.detection_interval -/
  detection_interval : ℚ
  /-- the output files created by cv2.VideoWriter so far (filesystem effect
  of start_recording_logic line 380) -/
  recorded_files : List String

/-- The external inputs consumed by one iteration of CameraWorker.run. -/
structure IterInput where
  /-- result of self._read_frame() at line 470 (None = read failure) -/
  read_result : Option Image
  /-- time.time() during this iteration -/
  now : ℚ
  /-- time.strftime("%d-%m-%Y_%H%M%S") used for the file name -/
  timestr : String
  /-- result of the fallback self._read_frame() inside
  start_recording_logic line 353, should it be reached -/
  encoder_read : Option Image
  /-- result of self.object_detector.detect(frame) at line 592:
  none models the call raising an exception -/
  detect_result : Option (Image × List DetObj)

/-- The output file name of camera_worker.py line 377:
`f"{PASTA_GRAVACOES}/{cam_id}-gravacao-{timestr}.webm"`. -/
def mkRecordingName (cfg : Config) (cam_id : String) (timestr : String) :
    String :=
  cfg.pasta_gravacoes ++ "/" ++ cam_id ++ "-gravacao-" ++ timestr ++ ".webm"

/-- The frame start_recording_logic sizes the encoder with (lines 349-355):
self.get_latest_frame(), falling back to self._read_frame() when the
shared buffer is still empty. -/
def frameForEncoder (st : WorkerState) (enc_read : Option Image) :
    Option Image :=
  match st.output_frame with
  | some f => some f
  | none => enc_read

/-- CameraWorker.start_recording_logic (camera_worker.py lines 336-389).
Must be called with the state lock held.  `enc_read` is the result of the
fallback _read_frame call, should it be reached. -/
def start_recording_logic (cfg : Config) (cam_id : String) (timestr : String)
    (enc_read : Option Image) (st : WorkerState) : WorkerState :=
  -- "Se já está gravando, não faz nada"
  if st.is_recording then st
  else
    let st1 := { st with is_recording := true }
    -- frame := self.get_latest_frame(); if None, frame := self._read_frame()
    let frame : Option Image := frameForEncoder st1 enc_read
    match frame with
    | none =>
        -- "Não conseguiu ler frame para iniciar gravação." (logged, aborted)
        { st1 with is_recording := false }
    | some _ =>
        let nome := mkRecordingName cfg cam_id timestr
        { st1 with
            video_writer := some { file := nome, frames := [] }
            recorded_files := st1.recorded_files ++ [nome] }

/-- CameraWorker.stop_recording_logic (camera_worker.py lines 391-413).
Must be called with the state lock held. -/
def stop_recording_logic (st : WorkerState) : WorkerState :=
  -- "Se não está gravando, não faz nada"
  if st.is_recording then
    let st1 := { st with is_recording := false }
    (match st1.video_writer with
     | none => st1
     | some _ => { st1 with video_writer := none })
  else st

/-- The toggle_motion_detection route (src/app/routes.py lines 199-238),
body under the worker's state lock. -/
def toggle_motion_detection (st : WorkerState) : WorkerState :=
  let st1 := { st with
    motion_detection_enabled := !st.motion_detection_enabled }
  if st1.motion_detection_enabled then
    -- "Se ativou, reseta o fundo estático"
    { st1 with static_background := none }
  else
    -- "Se desativou, para qualquer gravação automática em andamento"
    if st1.is_recording then stop_recording_logic st1 else st1

/-- The toggle_object_detection route (src/app/routes.py lines 244-300),
body under the worker's state lock.  `init_ok` tells whether constructing
the ObjectDetector succeeds, should it be attempted. -/
def toggle_object_detection (init_ok : Bool) (st : WorkerState) : WorkerState :=
  let st1 := { st with
    object_detection_enabled := !st.object_detection_enabled }
  if st1.object_detection_enabled ∧ ¬st1.object_detector_present then
    if init_ok then { st1 with object_detector_present := true }
    else { st1 with object_detection_enabled := false }
  else st1

/-- The contours kept by the loop of camera_worker.py lines 534-553: those
whose area is not below MIN_CONTOUR_AREA (`if area < MIN_CONTOUR_AREA:
continue`). -/
def qualifyingContours (cv : CV) (cfg : Config) (mask : GrayImage) :
    List Contour :=
  (cv.findContoursExt mask).filter
    (fun c => !(decide (cv.contourArea c < cfg.min_contour_area)))

/-- motion_detected_this_frame after the contour loop: true exactly when a
qualifying contour exists. -/
def motionDetectedB (cv : CV) (cfg : Config) (mask : GrayImage) : Bool :=
  !(qualifyingContours cv cfg mask).isEmpty

/-- The green rectangles drawn at line 553: one per qualifying contour. -/
def drawMotionRects (cv : CV) (cfg : Config) (mask : GrayImage)
    (img : Image) : Image :=
  (qualifyingContours cv cfg mask).foldl
    (fun f c => cv.rectangle f (cv.boundingRect c)) img

/-- The grayscale preprocessing of camera_worker.py lines 504-508: BGR →
gray, then a 21×21 Gaussian blur. -/
def preprocessGray (cv : CV) (frame_original : Image) : GrayImage :=
  cv.gaussianBlur21 (cv.cvtColorGray frame_original)

/-- The binary motion mask of lines 524-528: absolute difference against
the stored background, thresholded at 30. -/
def motionMask (cv : CV) (bg : GrayImage) (frame_original : Image) :
    GrayImage :=
  threshold30 (absdiff bg (preprocessGray cv frame_original))

/-- The automatic-recording consequence of lines 558-578, run under the
state lock: on motion, refresh last_motion_time and start recording if
idle; on no motion, stop once the cooldown has elapsed while recording. -/
def motionConsequence (cfg : Config) (cam_id : String) (inp : IterInput)
    (motion : Bool) (st : WorkerState) : WorkerState :=
  if motion then
    let st2 := { st with last_motion_time := inp.now }
    if st2.is_recording then st2
    else start_recording_logic cfg cam_id inp.timestr inp.encoder_read st2
  else
    -- tempo_sem_movimento = time.time() - self.last_motion_time
    if st.is_recording = true ∧
        cfg.motion_cooldown < inp.now - st.last_motion_time then
      stop_recording_logic st
    else st

/-- The motion-detection section of CameraWorker.run (lines 501-578),
executed when motion_detection_enabled is set.  Returns the new state and,
when the iteration proceeds, the annotated frame; `none` in the second
component models the `continue` on the calibration frame (line 517), which
skips the remainder of the loop body. -/
def motionStep (cv : CV) (cfg : Config) (cam_id : String) (inp : IterInput)
    (frame_original frame_processado : Image) (st : WorkerState) :
    WorkerState × Option Image :=
  let gray_frame := preprocessGray cv frame_original
  match st.static_background with
  | none =>
      -- "usa este frame como fundo" then `continue`
      ({ st with static_background := some gray_frame }, none)
  | some bg =>
      let thresh_frame := motionMask cv bg frame_original
      let motion := motionDetectedB cv cfg thresh_frame
      let fp := drawMotionRects cv cfg thresh_frame frame_processado
      (motionConsequence cfg cam_id inp motion st, some fp)

/-- The AUTO_RECORD_ON_OBJECTS check of camera_worker.py lines 623-632:
if some detected class is in the configured list and the worker is idle,
start recording and refresh last_motion_time. -/
def autoRecordCheck (cfg : Config) (cam_id : String) (inp : IterInput)
    (objs : List DetObj) (st : WorkerState) : WorkerState :=
  match cfg.auto_record_on_objects with
  | none => st
  | some autoList =>
      -- Python truthiness: an empty list disables auto-record
      if autoList.isEmpty then st
      else if objs.any (fun o => autoList.contains o.cls) then
        if st.is_recording then st
        else
          let st3 := start_recording_logic cfg cam_id inp.timestr
            inp.encoder_read st
          { st3 with last_motion_time := inp.now }
      else st

/-- The object-detection section of CameraWorker.run (lines 585-649).
Returns the new state and the (possibly re-annotated) frame. -/
def objectDetectionStep (cfg : Config) (cam_id : String) (inp : IterInput)
    (frame_processado : Image) (st : WorkerState) : WorkerState × Image :=
  if st.object_detection_enabled = true ∧ st.object_detector_present = true ∧
      st.detection_interval ≤ inp.now - st.last_detection_time then
    (match inp.detect_result with
     | none =>
         -- exception from detect: logged, loop continues;
         -- last_detection_time is not reached by the assignment at line 595
         (st, frame_processado)
     | some (annotated, objs) =>
         let st1 := { st with last_detection_time := inp.now }
         if objs.isEmpty then (st1, annotated)
         else (autoRecordCheck cfg cam_id inp objs st1, annotated))
  else (st, frame_processado)

/-- The recording section of CameraWorker.run (lines 654-663): while
recording, the raw frame is written to the active writer. -/
def recordFrameStep (frame_original : Image) (st : WorkerState) :
    WorkerState :=
  if st.is_recording then
    (match st.video_writer with
     | some w =>
         let w2 : VideoWriter := { w with frames := w.frames ++ [frame_original] }
         { st with video_writer := some w2 }
     | none => st)
  else st

/-- The tail of a loop iteration after the motion section: object
detection, recording write, and publishing the annotated frame
(lines 585-671). -/
def iterationTail (cfg : Config) (cam_id : String) (inp : IterInput)
    (frame_original frame_processado : Image) (st : WorkerState) :
    WorkerState :=
  let p := objectDetectionStep cfg cam_id inp frame_processado st
  let st2 := recordFrameStep frame_original p.1
  { st2 with output_frame := some p.2 }

/-- One iteration of the CameraWorker.run loop (lines 469-671), starting
from the frame read.  The reconnect branch for an unavailable source
(lines 430-467) is outside this embedding; the read-failure branch
(lines 473-481) publishes the placeholder frame and restarts the loop. -/
def runIteration (cv : CV) (cfg : Config) (cam_id : String)
    (inp : IterInput) (st : WorkerState) : WorkerState :=
  match inp.read_result with
  | none =>
      { st with output_frame := some (cv.create_no_camera_frame cam_id) }
  | some frame_original =>
      let frame_processado := frame_original
      if st.motion_detection_enabled then
        match motionStep cv cfg cam_id inp frame_original frame_processado st
          with
        | (st1, none) => st1
        | (st1, some fp) => iterationTail cfg cam_id inp frame_original fp st1
      else
        iterationTail cfg cam_id inp frame_original frame_processado st

/-- A run of consecutive loop iterations. -/
def runIterations (cv : CV) (cfg : Config) (cam_id : String)
    (inps : List IterInput) (st : WorkerState) : WorkerState :=
  inps.foldl (fun s i => runIteration cv cfg cam_id i s) st

/-
Lock model.  Each worker owns three locks (camera_worker.py lines 196-198
and 237): the frame lock, the state lock and the detection-stats lock.
Every critical section of the repository that touches a worker's locks is
recorded as a trace: the list of lock-hold sets observed while it executes,
in program order, with nested acquisitions accumulating.  Traces are read
off the source of src/app/camera_worker.py, src/app/routes.py,
src/app/video_stream.py and src/app/stats.py.
-/

/-- The three per-worker locks. -/
inductive LockName where
  | frameLock
  | stateLock
  | statsLock
deriving DecidableEq

/-- Lock-hold snapshots of CameraWorker.get_latest_frame (lines 257-269):
its body runs with the frame lock acquired on top of whatever is held. -/
def get_latest_frame_trace (held : List LockName) : List (List LockName) :=
  [LockName.frameLock :: held]

/-- Lock-hold snapshots of CameraWorker.start_recording_logic
(lines 336-389): documented to run with the state lock held; it calls
get_latest_frame at line 349 and possibly _read_frame (no locks). -/
def start_recording_logic_trace (held : List LockName) :
    List (List LockName) :=
  [held] ++ get_latest_frame_trace held ++ [held]

/-- Lock-hold snapshots of CameraWorker.stop_recording_logic
(lines 391-413): runs under the locks already held, acquiring none. -/
def stop_recording_logic_trace (held : List LockName) :
    List (List LockName) :=
  [held]

/-- Lock-hold snapshots of CameraWorker.get_detection_stats
(lines 673-687). -/
def get_detection_stats_trace (held : List LockName) :
    List (List LockName) :=
  [LockName.statsLock :: held]

/-- Lock-hold snapshots of one iteration of CameraWorker.run
(lines 428-671), in program order over all branches. -/
def run_loop_trace : List (List LockName) :=
  [[LockName.frameLock]]                                -- error-frame publish
  ++ [[LockName.stateLock]]                             -- read motion flag (495)
  ++ [[LockName.stateLock]]                             -- background section (511)
  ++ start_recording_logic_trace [LockName.stateLock]   -- motion start (558-571)
  ++ stop_recording_logic_trace [LockName.stateLock]    -- cooldown stop (572-578)
  ++ [[LockName.statsLock]]                             -- stats update (602)
  ++ start_recording_logic_trace [LockName.stateLock]   -- auto-record (628-632)
  ++ [[LockName.stateLock]]                             -- recording write (654)
  ++ [[LockName.frameLock]]                             -- publish (668)

/-- Lock-hold snapshots of CameraWorker.release (lines 689-709). -/
def release_trace : List (List LockName) :=
  [[LockName.stateLock]] ++ stop_recording_logic_trace [LockName.stateLock]

/-- Every code path of the repository that uses a worker's locks, by name:
the run loop, the worker methods called by consumers, and the route
handlers of src/app/routes.py (get_status 92, start_recording 152,
stop_recording 184, toggle_motion_detection 223, toggle_object_detection
272) plus the stats reader (src/app/stats.py 156). -/
def allLockTraces : List (String × List (List LockName)) :=
  [ ("run_loop", run_loop_trace)
  , ("video_stream_get_latest_frame", get_latest_frame_trace [])
  , ("get_status_route", [[LockName.stateLock]])
  , ("start_recording_route",
      [[LockName.stateLock]] ++ start_recording_logic_trace [LockName.stateLock])
  , ("stop_recording_route",
      [[LockName.stateLock]] ++ stop_recording_logic_trace [LockName.stateLock])
  , ("toggle_motion_detection_route",
      [[LockName.stateLock]] ++ stop_recording_logic_trace [LockName.stateLock])
  , ("toggle_object_detection_route", [[LockName.stateLock]])
  , ("get_detection_stats_route", get_detection_stats_trace [])
  , ("stats_camera_stats",
      [[LockName.stateLock]] ++ get_detection_stats_trace [LockName.stateLock])
  , ("worker_release", release_trace) ]

/-- A snapshot holding both the frame lock and the state lock. -/
def holdsBoth (snap : List LockName) : Bool :=
  snap.contains LockName.frameLock && snap.contains LockName.stateLock

/-
Frame hand-off model (SharedFrameBuffer, claim C8).  Buffers live in a heap
(a list indexed by allocation order); the worker's output_frame field holds
a reference (an index).  `.copy()` allocates a fresh buffer with the same
contents; assignment stores a reference.  This mirrors
CameraWorker.get_latest_frame (lines 257-269, `return
self.output_frame.copy()`) and the publish at line 671
(`self.output_frame = frame_processado`).
-/

/-- The heap of frame buffers of one worker, with the reference held by
self.output_frame. -/
structure FrameStore where
  heap : List Image
  /-- index into `heap` of the last published frame, None before the
  first publish -/
  out_ref : Option Nat

/-- Publishing a frame (line 671): the iteration's own buffer enters the
heap and output_frame now references it. -/
def fb_publish (fs : FrameStore) (d : Image) : FrameStore :=
  { heap := fs.heap ++ [d], out_ref := some fs.heap.length }

/-- CameraWorker.get_latest_frame: None before the first publish, else a
fresh copy of the referenced buffer; returns the reference handed to the
caller and the heap extended with the copy. -/
def fb_get (fs : FrameStore) (dflt : Image) : Option Nat × FrameStore :=
  match fs.out_ref with
  | none => (none, fs)
  | some i => (some fs.heap.length,
      { fs with heap := fs.heap ++ [fs.heap.getD i dflt] })

/-- A consumer mutating the buffer it was handed. -/
def fb_write (fs : FrameStore) (j : Nat) (d : Image) : FrameStore :=
  { fs with heap := fs.heap.set j d }

/-- Well-formedness: the published reference points into the heap. -/
def fb_wf (fs : FrameStore) : Prop :=
  ∀ i, fs.out_ref = some i → i < fs.heap.length

/-- The standing configuration of the cooldown scenario: motion detection
armed with background bg held, object detection off, last motion at t0. -/
def armedNoObj (bg : GrayImage) (t0 : ℚ) (st : WorkerState) : Prop :=
  st.motion_detection_enabled = true ∧ st.static_background = some bg ∧
  st.object_detection_enabled = false ∧ st.last_motion_time = t0

/-- An iteration input whose frame reads successfully and shows no
qualifying motion against background bg. -/
def stillFrame (cv : CV) (cfg : Config) (bg : GrayImage)
    (inp : IterInput) : Prop :=
  ∃ f, inp.read_result = some f ∧
    motionDetectedB cv cfg (motionMask cv bg f) = false

/-- The encoder/flag invariant of §3 of the specification:
`recording == true` iff `encoder.isSome()`. -/
def encoderInv (st : WorkerState) : Prop :=
  st.is_recording = st.video_writer.isSome

/-
Characterisation lemmas for the worker operations, shared by the claim
theorems below.
-/

/-- The state produced by a successful start_recording_logic. -/
def startedState (cfg : Config) (cam_id : String) (timestr : String)
    (st : WorkerState) : WorkerState :=
  { st with
      is_recording := true
      video_writer :=
        some { file := mkRecordingName cfg cam_id timestr, frames := [] }
      recorded_files :=
        st.recorded_files ++ [mkRecordingName cfg cam_id timestr] }

/-
Concrete sample values, used to instantiate the general theorems below on
explicit inputs.
-/

/-- An all-black frame. -/
def blackImage : Image := fun _ _ => (0, 0, 0)

/-- A second frame, brighter than blackImage. -/
def brightImage : Image := fun _ _ => (200, 200, 200)

/-- A flat grayscale background. -/
def bg0 : GrayImage := fun _ _ => 10

/-- An interpretation of the OpenCV primitives under which no contour is
ever found. -/
def cv0 : CV :=
  { cvtColorGray := fun _ => fun _ _ => 0
    gaussianBlur21 := fun g => g
    findContoursExt := fun _ => []
    contourArea := fun c => (c.length : ℚ)
    boundingRect := fun _ => (0, 0, 0, 0)
    rectangle := fun i _ => i
    create_no_camera_frame := fun _ => blackImage }

/-- An interpretation of the OpenCV primitives that reports one external
contour of area 600 on every mask. -/
def cv1 : CV :=
  { cv0 with
      findContoursExt := fun _ => [[(0, 0)]]
      contourArea := fun _ => 600 }

/-- The worker state right after __init__ (camera_worker.py lines
200-241). -/
def initState : WorkerState :=
  { output_frame := none
    is_recording := false
    video_writer := none
    motion_detection_enabled := false
    static_background := none
    last_motion_time := 0
    object_detection_enabled := false
    object_detector_present := false
    last_detection_time := 0
    detection_interval := 1/2
    recorded_files := [] }

/-- A freshly armed worker: motion detection on, no background yet. -/
def armedFreshState : WorkerState :=
  { initState with motion_detection_enabled := true }

/-- A sample loop input carrying a readable black frame at t = 10. -/
def inpCal : IterInput :=
  { read_result := some blackImage
    now := 10
    timestr := "ts"
    encoder_read := none
    detect_result := none }


theorem start_of_recording (cfg : Config) (cid t : String)
    (er : Option Image) (st : WorkerState) (h : st.is_recording = true) :
    start_recording_logic cfg cid t er st = st := by
  simp [start_recording_logic, h]

theorem start_of_idle (cfg : Config) (cid t : String) (er : Option Image)
    (st : WorkerState) (h : st.is_recording = false) :
    start_recording_logic cfg cid t er st =
      match frameForEncoder st er with
      | none => st
      | some _ => startedState cfg cid t st := by
  cases st with
  | mk of rec vw me bg lmt oe op ldt di rf =>
      subst h
      cases hfe : frameForEncoder (WorkerState.mk of false vw me bg lmt oe op ldt di rf) er with
      | none =>
          simp only [start_recording_logic, frameForEncoder] at hfe ⊢
          simp [hfe]
      | some f =>
          simp only [start_recording_logic, frameForEncoder] at hfe ⊢
          simp [hfe, startedState]

theorem stop_of_idle (st : WorkerState) (h : st.is_recording = false) :
    stop_recording_logic st = st := by
  simp [stop_recording_logic, h]

theorem stop_of_recording (st : WorkerState) (h : st.is_recording = true) :
    stop_recording_logic st =
      { st with is_recording := false, video_writer := none } := by
  cases st with
  | mk of rec vw me bg lmt oe op ldt di rf =>
      subst h
      cases vw <;> simp [stop_recording_logic]

theorem recordFrameStep_eq (f : Image) (st : WorkerState) :
    recordFrameStep f st =
      { st with video_writer :=
          if st.is_recording then
            (match st.video_writer with
             | some w => some { w with frames := w.frames ++ [f] }
             | none => none)
          else st.video_writer } := by
  cases st with
  | mk of rec vw me bg lmt oe op ldt di rf =>
      cases rec <;> cases vw <;> simp [recordFrameStep]

/-- start_recording_logic touches only is_recording, video_writer and
recorded_files. -/
theorem start_core (cfg : Config) (cid t : String) (er : Option Image)
    (st : WorkerState) :
    (start_recording_logic cfg cid t er st).output_frame = st.output_frame ∧
    (start_recording_logic cfg cid t er st).motion_detection_enabled
      = st.motion_detection_enabled ∧
    (start_recording_logic cfg cid t er st).static_background
      = st.static_background ∧
    (start_recording_logic cfg cid t er st).last_motion_time
      = st.last_motion_time ∧
    (start_recording_logic cfg cid t er st).object_detection_enabled
      = st.object_detection_enabled ∧
    (start_recording_logic cfg cid t er st).object_detector_present
      = st.object_detector_present ∧
    (start_recording_logic cfg cid t er st).last_detection_time
      = st.last_detection_time ∧
    (start_recording_logic cfg cid t er st).detection_interval
      = st.detection_interval := by
  unfold start_recording_logic
  split
  · simp
  · cases hfe : frameForEncoder { st with is_recording := true } er <;>
      simp [hfe]

/-- stop_recording_logic touches only is_recording and video_writer. -/
theorem stop_core (st : WorkerState) :
    (stop_recording_logic st).output_frame = st.output_frame ∧
    (stop_recording_logic st).motion_detection_enabled
      = st.motion_detection_enabled ∧
    (stop_recording_logic st).static_background = st.static_background ∧
    (stop_recording_logic st).last_motion_time = st.last_motion_time ∧
    (stop_recording_logic st).object_detection_enabled
      = st.object_detection_enabled ∧
    (stop_recording_logic st).object_detector_present
      = st.object_detector_present ∧
    (stop_recording_logic st).last_detection_time = st.last_detection_time ∧
    (stop_recording_logic st).detection_interval = st.detection_interval ∧
    (stop_recording_logic st).recorded_files = st.recorded_files := by
  unfold stop_recording_logic
  split
  · cases st.video_writer <;> simp
  · simp

/-- motionConsequence touches only is_recording, video_writer,
recorded_files and last_motion_time. -/
theorem motionConsequence_core (cfg : Config) (cid : String)
    (inp : IterInput) (m : Bool) (st : WorkerState) :
    (motionConsequence cfg cid inp m st).output_frame = st.output_frame ∧
    (motionConsequence cfg cid inp m st).motion_detection_enabled
      = st.motion_detection_enabled ∧
    (motionConsequence cfg cid inp m st).static_background
      = st.static_background ∧
    (motionConsequence cfg cid inp m st).object_detection_enabled
      = st.object_detection_enabled ∧
    (motionConsequence cfg cid inp m st).object_detector_present
      = st.object_detector_present ∧
    (motionConsequence cfg cid inp m st).last_detection_time
      = st.last_detection_time ∧
    (motionConsequence cfg cid inp m st).detection_interval
      = st.detection_interval := by
  unfold motionConsequence
  cases m with
  | false =>
      simp only [Bool.false_eq_true, if_false]
      split
      · obtain h := stop_core st
        tauto
      · simp
  | true =>
      simp only [if_true]
      split
      · simp
      · obtain h := start_core cfg cid inp.timestr inp.encoder_read
          { st with last_motion_time := inp.now }
        simp_all

/-- The auto-record check touches only is_recording, video_writer,
recorded_files and last_motion_time. -/
theorem autoRecordCheck_core (cfg : Config) (cid : String) (inp : IterInput)
    (objs : List DetObj) (st : WorkerState) :
    (autoRecordCheck cfg cid inp objs st).output_frame = st.output_frame ∧
    (autoRecordCheck cfg cid inp objs st).motion_detection_enabled
      = st.motion_detection_enabled ∧
    (autoRecordCheck cfg cid inp objs st).static_background
      = st.static_background ∧
    (autoRecordCheck cfg cid inp objs st).object_detection_enabled
      = st.object_detection_enabled ∧
    (autoRecordCheck cfg cid inp objs st).object_detector_present
      = st.object_detector_present ∧
    (autoRecordCheck cfg cid inp objs st).last_detection_time
      = st.last_detection_time ∧
    (autoRecordCheck cfg cid inp objs st).detection_interval
      = st.detection_interval := by
  obtain h := start_core cfg cid inp.timestr inp.encoder_read st
  unfold autoRecordCheck
  split
  · simp
  · split
    · simp
    · split
      · split
        · simp
        · simp_all
      · simp

/-- The object-detection section touches only is_recording, video_writer,
recorded_files, last_detection_time and last_motion_time. -/
theorem objd_core (cfg : Config) (cid : String) (inp : IterInput)
    (fp : Image) (st : WorkerState) :
    (objectDetectionStep cfg cid inp fp st).1.output_frame
      = st.output_frame ∧
    (objectDetectionStep cfg cid inp fp st).1.motion_detection_enabled
      = st.motion_detection_enabled ∧
    (objectDetectionStep cfg cid inp fp st).1.static_background
      = st.static_background ∧
    (objectDetectionStep cfg cid inp fp st).1.object_detection_enabled
      = st.object_detection_enabled ∧
    (objectDetectionStep cfg cid inp fp st).1.object_detector_present
      = st.object_detector_present ∧
    (objectDetectionStep cfg cid inp fp st).1.detection_interval
      = st.detection_interval := by
  unfold objectDetectionStep
  split
  · split
    · simp
    · rename_i a objs heq
      dsimp only
      split
      · simp
      · obtain h2 := autoRecordCheck_core cfg cid inp objs
          { st with last_detection_time := inp.now }
        simp_all
  · simp

/-- The iteration tail touches state only through the object-detection and
recording sections, then republishes the annotated frame. -/
theorem iterationTail_core (cfg : Config) (cid : String) (inp : IterInput)
    (f fp : Image) (st : WorkerState) :
    (iterationTail cfg cid inp f fp st).motion_detection_enabled
      = st.motion_detection_enabled ∧
    (iterationTail cfg cid inp f fp st).static_background
      = st.static_background ∧
    (iterationTail cfg cid inp f fp st).object_detection_enabled
      = st.object_detection_enabled ∧
    (iterationTail cfg cid inp f fp st).object_detector_present
      = st.object_detector_present ∧
    (iterationTail cfg cid inp f fp st).detection_interval
      = st.detection_interval ∧
    (iterationTail cfg cid inp f fp st).output_frame
      = some (objectDetectionStep cfg cid inp fp st).2 := by
  obtain ⟨h1, h2, h3, h4, h5, h6⟩ := objd_core cfg cid inp fp st
  unfold iterationTail
  dsimp only
  rw [recordFrameStep_eq]
  simp_all

theorem runIteration_read_none (cv : CV) (cfg : Config) (cid : String)
    (inp : IterInput) (st : WorkerState) (h : inp.read_result = none) :
    runIteration cv cfg cid inp st =
      { st with output_frame := some (cv.create_no_camera_frame cid) } := by
  unfold runIteration
  rw [h]

theorem runIteration_motion_off (cv : CV) (cfg : Config) (cid : String)
    (inp : IterInput) (st : WorkerState) (f : Image)
    (hr : inp.read_result = some f)
    (hm : st.motion_detection_enabled = false) :
    runIteration cv cfg cid inp st = iterationTail cfg cid inp f f st := by
  unfold runIteration
  rw [hr]
  simp [hm]

theorem runIteration_calibration (cv : CV) (cfg : Config) (cid : String)
    (inp : IterInput) (st : WorkerState) (f : Image)
    (hr : inp.read_result = some f)
    (hm : st.motion_detection_enabled = true)
    (hbg : st.static_background = none) :
    runIteration cv cfg cid inp st =
      { st with static_background := some (preprocessGray cv f) } := by
  unfold runIteration
  rw [hr]
  simp [hm, motionStep, hbg]

theorem runIteration_armed (cv : CV) (cfg : Config) (cid : String)
    (inp : IterInput) (st : WorkerState) (f : Image) (bg : GrayImage)
    (hr : inp.read_result = some f)
    (hm : st.motion_detection_enabled = true)
    (hbg : st.static_background = some bg) :
    runIteration cv cfg cid inp st =
      iterationTail cfg cid inp f
        (drawMotionRects cv cfg (motionMask cv bg f) f)
        (motionConsequence cfg cid inp
          (motionDetectedB cv cfg (motionMask cv bg f)) st) := by
  unfold runIteration
  rw [hr]
  simp [hm, motionStep, hbg]

/-- A loop iteration never changes the toggles nor the detection
interval. -/
theorem runIteration_flags (cv : CV) (cfg : Config) (cid : String)
    (inp : IterInput) (st : WorkerState) :
    (runIteration cv cfg cid inp st).motion_detection_enabled
      = st.motion_detection_enabled ∧
    (runIteration cv cfg cid inp st).object_detection_enabled
      = st.object_detection_enabled ∧
    (runIteration cv cfg cid inp st).object_detector_present
      = st.object_detector_present ∧
    (runIteration cv cfg cid inp st).detection_interval
      = st.detection_interval := by
  cases hr : inp.read_result with
  | none =>
      rw [runIteration_read_none cv cfg cid inp st hr]
      simp
  | some f =>
      cases hm : st.motion_detection_enabled with
      | false =>
          rw [runIteration_motion_off cv cfg cid inp st f hr hm]
          obtain h := iterationTail_core cfg cid inp f f st
          exact ⟨by rw [h.1, hm], h.2.2.1, h.2.2.2.1, h.2.2.2.2.1⟩
      | true =>
          cases hbg : st.static_background with
          | none =>
              rw [runIteration_calibration cv cfg cid inp st f hr hm hbg]
              simp [hm]
          | some bg =>
              rw [runIteration_armed cv cfg cid inp st f bg hr hm hbg]
              obtain h1 := iterationTail_core cfg cid inp f
                (drawMotionRects cv cfg (motionMask cv bg f) f)
                (motionConsequence cfg cid inp
                  (motionDetectedB cv cfg (motionMask cv bg f)) st)
              obtain h2 := motionConsequence_core cfg cid inp
                (motionDetectedB cv cfg (motionMask cv bg f)) st
              refine ⟨?_, ?_, ?_, ?_⟩
              · rw [h1.1, h2.2.1, hm]
              · rw [h1.2.2.1, h2.2.2.2.1]
              · rw [h1.2.2.2.1, h2.2.2.2.2.1]
              · rw [h1.2.2.2.2.1, h2.2.2.2.2.2.2]

/-- Once a background is held, no loop iteration changes it. -/
theorem runIteration_background_some (cv : CV) (cfg : Config) (cid : String)
    (inp : IterInput) (st : WorkerState) (bg : GrayImage)
    (hbg : st.static_background = some bg) :
    (runIteration cv cfg cid inp st).static_background = some bg := by
  cases hr : inp.read_result with
  | none =>
      rw [runIteration_read_none cv cfg cid inp st hr]
      simpa using hbg
  | some f =>
      cases hm : st.motion_detection_enabled with
      | false =>
          rw [runIteration_motion_off cv cfg cid inp st f hr hm]
          obtain h := iterationTail_core cfg cid inp f f st
          rw [h.2.1, hbg]
      | true =>
          rw [runIteration_armed cv cfg cid inp st f bg hr hm hbg]
          obtain h1 := iterationTail_core cfg cid inp f
            (drawMotionRects cv cfg (motionMask cv bg f) f)
            (motionConsequence cfg cid inp
              (motionDetectedB cv cfg (motionMask cv bg f)) st)
          obtain h2 := motionConsequence_core cfg cid inp
            (motionDetectedB cv cfg (motionMask cv bg f)) st
          rw [h1.2.1, h2.2.2.1, hbg]

/-- A loop iteration never clears a held background: if the background is
gone after the iteration, it was absent before it. -/
theorem runIteration_background_none (cv : CV) (cfg : Config) (cid : String)
    (inp : IterInput) (st : WorkerState)
    (h : (runIteration cv cfg cid inp st).static_background = none) :
    st.static_background = none := by
  cases hbg : st.static_background with
  | none => rfl
  | some bg =>
      rw [runIteration_background_some cv cfg cid inp st bg hbg] at h
      exact absurd h (by simp)

/-- With no motion this frame, the consequence section reduces to the
cooldown test of lines 572-578. -/
theorem motionConsequence_no_motion (cfg : Config) (cid : String)
    (inp : IterInput) (st : WorkerState) :
    motionConsequence cfg cid inp false st =
      if st.is_recording = true ∧
          cfg.motion_cooldown < inp.now - st.last_motion_time then
        { st with is_recording := false, video_writer := none }
      else st := by
  unfold motionConsequence
  simp only [Bool.false_eq_true, if_false]
  split
  · rename_i h
    rw [stop_of_recording st h.1]
  · rfl

/-- With object detection disabled, the iteration tail only appends to the
writer and republishes: recording state, motion clock and files are
untouched. -/
theorem iterationTail_obj_off (cfg : Config) (cid : String)
    (inp : IterInput) (f fp : Image) (st : WorkerState)
    (ho : st.object_detection_enabled = false) :
    (iterationTail cfg cid inp f fp st).is_recording = st.is_recording ∧
    (iterationTail cfg cid inp f fp st).last_motion_time
      = st.last_motion_time ∧
    (iterationTail cfg cid inp f fp st).video_writer.isSome
      = st.video_writer.isSome ∧
    (iterationTail cfg cid inp f fp st).recorded_files
      = st.recorded_files ∧
    (iterationTail cfg cid inp f fp st).last_detection_time
      = st.last_detection_time := by
  cases hrec : st.is_recording <;> cases hw : st.video_writer <;>
    simp [iterationTail, objectDetectionStep, recordFrameStep, ho, hrec, hw]

/-- An armed iteration that sees no qualifying motion: recording survives
exactly when the cooldown has not yet expired, and the motion clock is
untouched. -/
theorem runIteration_no_motion_iter (cv : CV) (cfg : Config) (cid : String)
    (inp : IterInput) (st : WorkerState) (f : Image) (bg : GrayImage)
    (hr : inp.read_result = some f)
    (hm : st.motion_detection_enabled = true)
    (hbg : st.static_background = some bg)
    (ho : st.object_detection_enabled = false)
    (hq : motionDetectedB cv cfg (motionMask cv bg f) = false) :
    (runIteration cv cfg cid inp st).is_recording
      = (st.is_recording &&
          !(decide (cfg.motion_cooldown < inp.now - st.last_motion_time))) ∧
    (runIteration cv cfg cid inp st).last_motion_time
      = st.last_motion_time := by
  rw [runIteration_armed cv cfg cid inp st f bg hr hm hbg, hq,
    motionConsequence_no_motion]
  by_cases hc : st.is_recording = true ∧
      cfg.motion_cooldown < inp.now - st.last_motion_time
  · rw [if_pos hc]
    obtain h := iterationTail_obj_off cfg cid inp f
      (drawMotionRects cv cfg (motionMask cv bg f) f)
      { st with is_recording := false, video_writer := none } (by simpa using ho)
    refine ⟨?_, ?_⟩
    · rw [h.1]
      simp [hc.1, hc.2]
    · rw [h.2.1]
  · rw [if_neg hc]
    obtain h := iterationTail_obj_off cfg cid inp f
      (drawMotionRects cv cfg (motionMask cv bg f) f) st ho
    refine ⟨?_, h.2.1⟩
    rw [h.1]
    cases hrec : st.is_recording with
    | false => simp
    | true =>
        have hnc : ¬ cfg.motion_cooldown < inp.now - st.last_motion_time := by
          intro hlt
          exact hc ⟨hrec, hlt⟩
        simp [hnc]



theorem cooldown_step (cv : CV) (cfg : Config) (cid : String)
    (inp : IterInput) (st : WorkerState) (bg : GrayImage) (t0 : ℚ)
    (hs : armedNoObj bg t0 st) (hi : stillFrame cv cfg bg inp) :
    armedNoObj bg t0 (runIteration cv cfg cid inp st) ∧
    (runIteration cv cfg cid inp st).is_recording
      = (st.is_recording &&
          !(decide (cfg.motion_cooldown < inp.now - t0))) := by
  obtain ⟨hm, hbg, ho, hlmt⟩ := hs
  obtain ⟨f, hr, hq⟩ := hi
  obtain ⟨hrec, hlmt2⟩ :=
    runIteration_no_motion_iter cv cfg cid inp st f bg hr hm hbg ho hq
  obtain hfl := runIteration_flags cv cfg cid inp st
  refine ⟨⟨?_, ?_, ?_, ?_⟩, ?_⟩
  · rw [hfl.1, hm]
  · exact runIteration_background_some cv cfg cid inp st bg hbg
  · rw [hfl.2.1, ho]
  · rw [hlmt2, hlmt]
  · rw [hrec, hlmt]

theorem cooldown_fold (cv : CV) (cfg : Config) (cid : String)
    (inps : List IterInput) (st : WorkerState) (bg : GrayImage) (t0 : ℚ)
    (hs : armedNoObj bg t0 st)
    (hi : ∀ inp ∈ inps, stillFrame cv cfg bg inp) :
    (runIterations cv cfg cid inps st).is_recording
      = (st.is_recording &&
          !(inps.any
              (fun inp => decide (cfg.motion_cooldown < inp.now - t0)))) := by
  induction inps generalizing st with
  | nil => simp [runIterations]
  | cons a l ih =>
      obtain ⟨hpres, hrec⟩ :=
        cooldown_step cv cfg cid a st bg t0 hs (hi a (by simp))
      have hstep : runIterations cv cfg cid (a :: l) st
          = runIterations cv cfg cid l (runIteration cv cfg cid a st) := by
        simp [runIterations]
      rw [hstep, ih (runIteration cv cfg cid a st) hpres
        (fun inp hmem => hi inp (by simp [hmem])), hrec]
      cases st.is_recording <;>
        cases hd : decide (cfg.motion_cooldown < a.now - t0) <;> simp [hd]


theorem start_inv (cfg : Config) (cid t : String) (er : Option Image)
    (st : WorkerState) (h : encoderInv st) :
    encoderInv (start_recording_logic cfg cid t er st) := by
  unfold encoderInv at h ⊢
  cases hrec : st.is_recording with
  | true => rw [start_of_recording cfg cid t er st hrec, hrec, ← h, hrec]
  | false =>
      rw [start_of_idle cfg cid t er st hrec]
      cases frameForEncoder st er with
      | none => rw [hrec, ← h, hrec]
      | some f => simp [startedState]

theorem stop_inv (st : WorkerState) (h : encoderInv st) :
    encoderInv (stop_recording_logic st) := by
  unfold encoderInv at h ⊢
  cases hrec : st.is_recording with
  | true => rw [stop_of_recording st hrec]; simp
  | false => rw [stop_of_idle st hrec, hrec, ← h, hrec]

theorem motionConsequence_inv (cfg : Config) (cid : String)
    (inp : IterInput) (m : Bool) (st : WorkerState) (h : encoderInv st) :
    encoderInv (motionConsequence cfg cid inp m st) := by
  unfold motionConsequence
  cases m with
  | false =>
      simp only [Bool.false_eq_true, if_false]
      split
      · exact stop_inv st h
      · exact h
  | true =>
      simp only [if_true]
      have h2 : encoderInv { st with last_motion_time := inp.now } := h
      split
      · exact h2
      · exact start_inv cfg cid inp.timestr inp.encoder_read _ h2

theorem autoRecordCheck_inv (cfg : Config) (cid : String) (inp : IterInput)
    (objs : List DetObj) (st : WorkerState) (h : encoderInv st) :
    encoderInv (autoRecordCheck cfg cid inp objs st) := by
  unfold autoRecordCheck
  split
  · exact h
  · split
    · exact h
    · split
      · split
        · exact h
        · have h2 := start_inv cfg cid inp.timestr inp.encoder_read st h
          unfold encoderInv at h2 ⊢
          simpa using h2
      · exact h

theorem objd_inv (cfg : Config) (cid : String) (inp : IterInput)
    (fp : Image) (st : WorkerState) (h : encoderInv st) :
    encoderInv (objectDetectionStep cfg cid inp fp st).1 := by
  unfold objectDetectionStep
  split
  · split
    · exact h
    · rename_i a objs heq
      dsimp only
      split
      · exact h
      · exact autoRecordCheck_inv cfg cid inp objs
          { st with last_detection_time := inp.now } h
  · exact h

theorem recordFrameStep_inv (f : Image) (st : WorkerState)
    (h : encoderInv st) : encoderInv (recordFrameStep f st) := by
  unfold encoderInv at h ⊢
  rw [recordFrameStep_eq]
  cases hrec : st.is_recording <;> cases hw : st.video_writer <;>
    simp_all

theorem iterationTail_inv (cfg : Config) (cid : String) (inp : IterInput)
    (f fp : Image) (st : WorkerState) (h : encoderInv st) :
    encoderInv (iterationTail cfg cid inp f fp st) := by
  unfold iterationTail
  dsimp only
  have h2 := recordFrameStep_inv f (objectDetectionStep cfg cid inp fp st).1
    (objd_inv cfg cid inp fp st h)
  unfold encoderInv at h2 ⊢
  simpa using h2

theorem runIteration_inv (cv : CV) (cfg : Config) (cid : String)
    (inp : IterInput) (st : WorkerState) (h : encoderInv st) :
    encoderInv (runIteration cv cfg cid inp st) := by
  cases hr : inp.read_result with
  | none =>
      rw [runIteration_read_none cv cfg cid inp st hr]
      unfold encoderInv at h ⊢
      simpa using h
  | some f =>
      cases hm : st.motion_detection_enabled with
      | false =>
          rw [runIteration_motion_off cv cfg cid inp st f hr hm]
          exact iterationTail_inv cfg cid inp f f st h
      | true =>
          cases hbg : st.static_background with
          | none =>
              rw [runIteration_calibration cv cfg cid inp st f hr hm hbg]
              unfold encoderInv at h ⊢
              simpa using h
          | some bg =>
              rw [runIteration_armed cv cfg cid inp st f bg hr hm hbg]
              exact iterationTail_inv cfg cid inp f _ _
                (motionConsequence_inv cfg cid inp _ st h)

theorem toggle_motion_inv (st : WorkerState) (h : encoderInv st) :
    encoderInv (toggle_motion_detection st) := by
  unfold toggle_motion_detection
  dsimp only
  split
  · unfold encoderInv at h ⊢
    simpa using h
  · split
    · exact stop_inv _ h
    · exact h

theorem toggle_object_inv (ok : Bool) (st : WorkerState)
    (h : encoderInv st) : encoderInv (toggle_object_detection ok st) := by
  unfold toggle_object_detection
  dsimp only
  split
  · split <;> (unfold encoderInv at h ⊢; simpa using h)
  · exact h

/-- C1: while motion detection is armed, the first processed frame after
(re)arming stores the blurred grayscale frame as the background, reports
no motion and skips the motion-consequence logic (the iteration changes
nothing but the background); on every later frame a held background is
never updated; and the background is cleared (set to None) only by the
external toggle that enables motion detection — neither a loop iteration
nor start/stop recording nor the disabling toggle ever clears it. -/
theorem C1_background_lifecycle (cv : CV) (cfg : Config) (cid t : String)
    (er : Option Image) (ok : Bool) (inp : IterInput) (st : WorkerState) :
    (∀ f, inp.read_result = some f → st.motion_detection_enabled = true →
      st.static_background = none →
      runIteration cv cfg cid inp st
        = { st with static_background := some (preprocessGray cv f) }) ∧
    (∀ bg, st.static_background = some bg →
      (runIteration cv cfg cid inp st).static_background = some bg) ∧
    (st.motion_detection_enabled = false →
      (toggle_motion_detection st).static_background = none) ∧
    ((runIteration cv cfg cid inp st).static_background = none →
      st.static_background = none) ∧
    (start_recording_logic cfg cid t er st).static_background
      = st.static_background ∧
    (stop_recording_logic st).static_background = st.static_background ∧
    (st.motion_detection_enabled = true →
      (toggle_motion_detection st).static_background
        = st.static_background) ∧
    (toggle_object_detection ok st).static_background
      = st.static_background := by
  refine ⟨?_, ?_, ?_, ?_, ?_, ?_, ?_, ?_⟩
  · intro f hr hm hbg
    exact runIteration_calibration cv cfg cid inp st f hr hm hbg
  · intro bg hbg
    exact runIteration_background_some cv cfg cid inp st bg hbg
  · intro hm
    unfold toggle_motion_detection
    simp [hm]
  · exact runIteration_background_none cv cfg cid inp st
  · exact (start_core cfg cid t er st).2.2.1
  · exact (stop_core st).2.2.1
  · intro hm
    unfold toggle_motion_detection
    dsimp only
    rw [hm]
    simp only [Bool.not_true, Bool.false_eq_true, if_false]
    split
    · exact (stop_core _).2.2.1
    · rfl
  · unfold toggle_object_detection
    dsimp only
    split
    · split <;> rfl
    · rfl

/-- Witness for C1: a freshly armed worker calibrates on the first frame
and the iteration changes nothing but the background. -/
theorem C1_background_lifecycle_witness :
    runIteration cv0 defaultConfig "webcam" inpCal armedFreshState
      = { armedFreshState with
            static_background := some (preprocessGray cv0 blackImage) } :=
  (C1_background_lifecycle cv0 defaultConfig "webcam" "ts" none true inpCal
    armedFreshState).1 blackImage rfl rfl rfl

/-- C10: on the calibration iteration (motion armed, no background held)
the `continue` at camera_worker.py line 517 skips the whole remainder of
the loop body: the resulting state differs from the previous one only in
the stored background, so no frame is written to an active encoder (even
during a manually started recording), the writer and the recording flag
are untouched, and the shared frame buffer still holds the previous
frame. -/
theorem C10_calibration_skips_rest (cv : CV) (cfg : Config) (cid : String)
    (inp : IterInput) (st : WorkerState) (f : Image)
    (hr : inp.read_result = some f)
    (hm : st.motion_detection_enabled = true)
    (hbg : st.static_background = none) :
    runIteration cv cfg cid inp st
      = { st with static_background := some (preprocessGray cv f) } ∧
    (runIteration cv cfg cid inp st).output_frame = st.output_frame ∧
    (runIteration cv cfg cid inp st).video_writer = st.video_writer ∧
    (runIteration cv cfg cid inp st).is_recording = st.is_recording ∧
    (runIteration cv cfg cid inp st).recorded_files = st.recorded_files := by
  have h := runIteration_calibration cv cfg cid inp st f hr hm hbg
  refine ⟨h, ?_, ?_, ?_, ?_⟩ <;> rw [h]

/-- Witness for C10: a worker that is manually recording during the
calibration frame keeps its writer (with no frame appended) and its
published frame. -/
theorem C10_calibration_skips_rest_witness :
    runIteration cv0 defaultConfig "webcam" inpCal
        { armedFreshState with
            output_frame := some brightImage
            is_recording := true
            video_writer := some { file := "f.webm", frames := [] } }
      = { armedFreshState with
            output_frame := some brightImage
            is_recording := true
            video_writer := some { file := "f.webm", frames := [] }
            static_background := some (preprocessGray cv0 blackImage) } :=
  (C10_calibration_skips_rest cv0 defaultConfig "webcam" inpCal
      { armedFreshState with
          output_frame := some brightImage
          is_recording := true
          video_writer := some { file := "f.webm", frames := [] } }
      blackImage rfl rfl rfl).1

/-- C6: when the encoder cannot be opened because no frame is obtainable
(the shared buffer is empty and the fallback read fails,
camera_worker.py lines 349-362), the requested recording transition is
aborted: the state is exactly unchanged, so the worker stays Idle with no
encoder held and no output file created. -/
theorem C6_encoder_open_failure (cfg : Config) (cid t : String)
    (st : WorkerState)
    (hrec : st.is_recording = false)
    (hof : st.output_frame = none) :
    start_recording_logic cfg cid t none st = st ∧
    (start_recording_logic cfg cid t none st).is_recording = false ∧
    (start_recording_logic cfg cid t none st).video_writer
      = st.video_writer ∧
    (start_recording_logic cfg cid t none st).recorded_files
      = st.recorded_files := by
  have hfe : frameForEncoder st none = none := by
    unfold frameForEncoder
    rw [hof]
  have h : start_recording_logic cfg cid t none st = st := by
    rw [start_of_idle cfg cid t none st hrec, hfe]
  exact ⟨h, by rw [h, hrec], by rw [h], by rw [h]⟩

/-- Witness for C6: the failed start on a fresh worker leaves the state
literally equal to the initial state. -/
theorem C6_encoder_open_failure_witness :
    start_recording_logic defaultConfig "webcam" "ts" none initState
      = initState :=
  (C6_encoder_open_failure defaultConfig "webcam" "ts" initState rfl rfl).1

/-- C5: the invariant `recording == true` iff `encoder.isSome()` is
preserved by every operation on the worker state — start, stop, both
toggles and a full loop iteration — and by construction at most one
encoder (an Option field) ever exists per worker. -/
theorem C5_encoder_flag_invariant (cv : CV) (cfg : Config) (cid t : String)
    (er : Option Image) (ok : Bool) (inp : IterInput) (st : WorkerState)
    (h : encoderInv st) :
    encoderInv (start_recording_logic cfg cid t er st) ∧
    encoderInv (stop_recording_logic st) ∧
    encoderInv (toggle_motion_detection st) ∧
    encoderInv (toggle_object_detection ok st) ∧
    encoderInv (runIteration cv cfg cid inp st) ∧
    (runIteration cv cfg cid inp st).video_writer.toList.length ≤ 1 := by
  refine ⟨start_inv cfg cid t er st h, stop_inv st h,
    toggle_motion_inv st h, toggle_object_inv ok st h,
    runIteration_inv cv cfg cid inp st h, ?_⟩
  cases (runIteration cv cfg cid inp st).video_writer <;> simp

/-- Witness for C5: the invariant holds on the initial state and is kept
by each operation on it. -/
theorem C5_encoder_flag_invariant_witness :
    encoderInv initState ∧
    encoderInv (start_recording_logic defaultConfig "webcam" "ts"
      (some blackImage) initState) ∧
    encoderInv (runIteration cv0 defaultConfig "webcam" inpCal initState) := by
  have h0 : encoderInv initState := rfl
  obtain h := C5_encoder_flag_invariant cv0 defaultConfig "webcam" "ts"
    (some blackImage) true inpCal initState h0
  exact ⟨h0, h.1, h.2.2.2.2.1⟩

/-- C4 counterexample: on a worker whose shared buffer is still empty and
whose camera read fails, two successive startRecording calls create no
encoder and no output file at all, refuting "for every worker state,
calling startRecording twice in a row yields exactly one active encoder
and one output file". -/
theorem C4_counterexample :
    ¬ ((start_recording_logic defaultConfig "webcam" "t2" none
          (start_recording_logic defaultConfig "webcam" "t1" none
            initState)).video_writer.isSome = true ∧
       (start_recording_logic defaultConfig "webcam" "t2" none
          (start_recording_logic defaultConfig "webcam" "t1" none
            initState)).recorded_files.length = 1) := by
  intro h
  exact absurd h.2 (by decide)

/-- C4 (amended): startRecording and stopRecording are idempotent in the
following sense.  A second startRecording right after one that actually
entered the Recording state is a no-op; when the worker is idle and a
frame is available, a double start yields exactly one active encoder and
exactly one new output file; when no frame is obtainable both calls abort
and create nothing; and stopRecording while not recording leaves the
state exactly unchanged. -/
theorem C4_start_stop_idempotent (cfg : Config) (cid t1 t2 : String)
    (er1 er2 : Option Image) (s : WorkerState) :
    ((start_recording_logic cfg cid t1 er1 s).is_recording = true →
      start_recording_logic cfg cid t2 er2
          (start_recording_logic cfg cid t1 er1 s)
        = start_recording_logic cfg cid t1 er1 s) ∧
    (s.is_recording = false → frameForEncoder s er1 ≠ none →
      (start_recording_logic cfg cid t2 er2
          (start_recording_logic cfg cid t1 er1 s)).video_writer
        = some { file := mkRecordingName cfg cid t1, frames := [] } ∧
      (start_recording_logic cfg cid t2 er2
          (start_recording_logic cfg cid t1 er1 s)).recorded_files
        = s.recorded_files ++ [mkRecordingName cfg cid t1]) ∧
    (s.is_recording = false → stop_recording_logic s = s) := by
  refine ⟨?_, ?_, stop_of_idle s⟩
  · intro h
    exact start_of_recording cfg cid t2 er2 _ h
  · intro hrec hfe
    obtain ⟨f, hf⟩ := Option.ne_none_iff_exists'.mp hfe
    have h1 : start_recording_logic cfg cid t1 er1 s
        = startedState cfg cid t1 s := by
      rw [start_of_idle cfg cid t1 er1 s hrec, hf]
    have h2 : start_recording_logic cfg cid t2 er2
        (startedState cfg cid t1 s) = startedState cfg cid t1 s :=
      start_of_recording cfg cid t2 er2 _ rfl
    rw [h1, h2]
    exact ⟨rfl, rfl⟩

/-- Witness for C4 (amended): an idle worker holding a frame gains exactly
one encoder and one file from a double start; a stop on the idle initial
state is the identity. -/
theorem C4_start_stop_idempotent_witness :
    ((start_recording_logic defaultConfig "webcam" "t2" none
        (start_recording_logic defaultConfig "webcam" "t1" none
          { initState with output_frame := some blackImage })).video_writer
      = some { file := mkRecordingName defaultConfig "webcam" "t1",
               frames := [] } ∧
     (start_recording_logic defaultConfig "webcam" "t2" none
        (start_recording_logic defaultConfig "webcam" "t1" none
          { initState with output_frame := some blackImage })).recorded_files
      = [mkRecordingName defaultConfig "webcam" "t1"]) ∧
    stop_recording_logic initState = initState := by
  obtain h := C4_start_stop_idempotent defaultConfig "webcam" "t1" "t2"
    none none { initState with output_frame := some blackImage }
  refine ⟨h.2.1 rfl (fun hc => Option.noConfusion hc), ?_⟩
  obtain h2 := C4_start_stop_idempotent defaultConfig "webcam" "t1" "t2"
    none none initState
  exact h2.2.2 rfl

/-- C3: cooldown law.  For a recording worker with motion detection armed
(background held, object detection off, last motion at t0), processing any
run of iterations none of which sees qualifying motion, the recording is
stopped after exactly those prefixes of the run that contain an iteration
whose wall-clock time satisfies now - t0 > MOTION_COOLDOWN (strict
inequality, default 5.0): it is still on after every earlier prefix and
off from the first such iteration onward. -/
theorem C3_cooldown_law (cv : CV) (cfg : Config) (cid : String)
    (inps : List IterInput) (st : WorkerState) (bg : GrayImage) (t0 : ℚ)
    (hrec : st.is_recording = true)
    (hs : armedNoObj bg t0 st)
    (hi : ∀ inp ∈ inps, stillFrame cv cfg bg inp) :
    (∀ p q, inps = p ++ q →
      ((runIterations cv cfg cid p st).is_recording = false ↔
        ∃ inp ∈ p, cfg.motion_cooldown < inp.now - t0)) ∧
    defaultConfig.motion_cooldown = 5 := by
  refine ⟨?_, rfl⟩
  intro p q hsplit
  have hip : ∀ inp ∈ p, stillFrame cv cfg bg inp := by
    intro inp hmem
    exact hi inp (by rw [hsplit]; exact List.mem_append_left q hmem)
  rw [cooldown_fold cv cfg cid p st bg t0 hs hip, hrec]
  simp [List.any_eq_true]

/-- Witness for C3: with cooldown 5 and last motion at t0 = 0, quiet
iterations at t = 3 and t = 5 keep recording (5 - 0 is not > 5), and the
iteration at t = 5.2 stops it. -/
theorem C3_cooldown_law_witness :
    (runIterations cv0 defaultConfig "webcam"
        [{ inpCal with now := 3 }, { inpCal with now := 5 }]
        { armedFreshState with
            is_recording := true
            video_writer := some { file := "f.webm", frames := [] }
            static_background := some bg0 }).is_recording = true ∧
    (runIterations cv0 defaultConfig "webcam"
        [{ inpCal with now := 3 }, { inpCal with now := 5 },
         { inpCal with now := 26/5 }]
        { armedFreshState with
            is_recording := true
            video_writer := some { file := "f.webm", frames := [] }
            static_background := some bg0 }).is_recording = false := by
  obtain h := C3_cooldown_law cv0 defaultConfig "webcam"
    [{ inpCal with now := 3 }, { inpCal with now := 5 },
     { inpCal with now := 26/5 }]
    { armedFreshState with
        is_recording := true
        video_writer := some { file := "f.webm", frames := [] }
        static_background := some bg0 }
    bg0 0 rfl ⟨rfl, rfl, rfl, rfl⟩
    (by
      intro inp hmem
      refine ⟨blackImage, ?_, rfl⟩
      fin_cases hmem <;> rfl)
  constructor
  · have h2 := h.1 [{ inpCal with now := 3 }, { inpCal with now := 5 }]
      [{ inpCal with now := 26/5 }] rfl
    have h3 : ¬ ∃ inp ∈ [{ inpCal with now := 3 }, { inpCal with now := 5 }],
        defaultConfig.motion_cooldown < inp.now - 0 := by
      simp only [List.mem_cons, List.not_mem_nil, or_false, not_exists,
        not_and, defaultConfig]
      rintro inp (rfl | rfl) <;> norm_num
    cases hv : (runIterations cv0 defaultConfig "webcam"
        [{ inpCal with now := 3 }, { inpCal with now := 5 }]
        { armedFreshState with
            is_recording := true
            video_writer := some { file := "f.webm", frames := [] }
            static_background := some bg0 }).is_recording
    · exact absurd (h2.mp hv) h3
    · rfl
  · have h2 := h.1 [{ inpCal with now := 3 }, { inpCal with now := 5 },
      { inpCal with now := 26/5 }] [] (by simp)
    refine h2.mpr ⟨{ inpCal with now := 26/5 }, by simp, ?_⟩
    show defaultConfig.motion_cooldown < 26/5 - 0
    simp only [defaultConfig]
    norm_num

/-- C2: when motion detection is armed and a background is held, the
iteration runs exactly the pipeline grayscale → 21×21 Gaussian blur →
per-pixel absolute difference against the stored background → binary
threshold mapping pixels strictly greater than 30 to foreground (255) →
external contours; motion is reported exactly when some external contour
of the mask has area at least the configured minimum (default 500), with
one bounding rectangle drawn per qualifying contour and smaller contours
ignored. -/
theorem C2_motion_algorithm (cv : CV) (cfg : Config) (cid : String)
    (inp : IterInput) (st : WorkerState) (f : Image) (bg : GrayImage)
    (hr : inp.read_result = some f)
    (hm : st.motion_detection_enabled = true)
    (hbg : st.static_background = some bg) :
    runIteration cv cfg cid inp st
      = iterationTail cfg cid inp f
          (drawMotionRects cv cfg (motionMask cv bg f) f)
          (motionConsequence cfg cid inp
            (motionDetectedB cv cfg (motionMask cv bg f)) st) ∧
    (∀ r c, motionMask cv bg f r c
        = if 30 < absdiff bg (preprocessGray cv f) r c then 255 else 0) ∧
    (∀ r c, (absdiff bg (preprocessGray cv f) r c : ℤ)
        = |(bg r c : ℤ) - (preprocessGray cv f r c : ℤ)|) ∧
    (motionDetectedB cv cfg (motionMask cv bg f) = true ↔
      ∃ ct ∈ cv.findContoursExt (motionMask cv bg f),
        cfg.min_contour_area ≤ cv.contourArea ct) ∧
    (drawMotionRects cv cfg (motionMask cv bg f) f
      = ((cv.findContoursExt (motionMask cv bg f)).filter
          (fun ct =>
            !(decide (cv.contourArea ct < cfg.min_contour_area)))).foldl
          (fun img ct => cv.rectangle img (cv.boundingRect ct)) f) ∧
    defaultConfig.min_contour_area = 500 := by
  refine ⟨runIteration_armed cv cfg cid inp st f bg hr hm hbg,
    fun r c => rfl, ?_, ?_, rfl, rfl⟩
  · intro r c
    show ((max (bg r c) (preprocessGray cv f r c)
        - min (bg r c) (preprocessGray cv f r c) : ℕ) : ℤ) = _
    rcases le_total (bg r c) (preprocessGray cv f r c) with h | h
    · rw [max_eq_right h, min_eq_left h, Nat.cast_sub h, abs_sub_comm,
        abs_of_nonneg (sub_nonneg.mpr (by exact_mod_cast h))]
    · rw [max_eq_left h, min_eq_right h, Nat.cast_sub h,
        abs_of_nonneg (sub_nonneg.mpr (by exact_mod_cast h))]
  · unfold motionDetectedB qualifyingContours
    rw [Bool.not_eq_true']
    constructor
    · intro h
      obtain ⟨ct, hct⟩ := List.isEmpty_eq_false_iff_exists_mem.mp h
      obtain ⟨hmem, hp⟩ := List.mem_filter.mp hct
      refine ⟨ct, hmem, ?_⟩
      have hp2 : ¬ cv.contourArea ct < cfg.min_contour_area := by
        simpa using hp
      exact not_lt.mp hp2
    · rintro ⟨ct, hmem, harea⟩
      refine List.isEmpty_eq_false_iff_exists_mem.mpr ⟨ct, ?_⟩
      refine List.mem_filter.mpr ⟨hmem, ?_⟩
      simp [not_lt.mpr harea]

/-- Witness for C2: under an interpretation of the contour primitives
reporting one contour of area 600, motion is reported on the sample
frame, and the default minimum contour area is 500. -/
theorem C2_motion_algorithm_witness :
    (motionDetectedB cv1 defaultConfig (motionMask cv1 bg0 blackImage)
        = true ↔
      ∃ ct ∈ cv1.findContoursExt (motionMask cv1 bg0 blackImage),
        defaultConfig.min_contour_area ≤ cv1.contourArea ct) ∧
    defaultConfig.min_contour_area = 500 := by
  obtain h := C2_motion_algorithm cv1 defaultConfig "webcam" inpCal
    { armedFreshState with static_background := some bg0 }
    blackImage bg0 rfl rfl rfl
  exact ⟨h.2.2.2.1, h.2.2.2.2.2⟩

/-- The recording write and the publish do not change the recording flag:
the flag after the iteration tail is the one after the object-detection
section. -/
theorem iterationTail_is_recording (cfg : Config) (cid : String)
    (inp : IterInput) (f fp : Image) (st : WorkerState) :
    (iterationTail cfg cid inp f fp st).is_recording
      = (objectDetectionStep cfg cid inp fp st).1.is_recording := by
  unfold iterationTail
  dsimp only
  rw [recordFrameStep_eq]

/-- C9: with object detection enabled (detector present, interval
elapsed), a non-empty auto-record allow-list, and an inference result
containing a detection whose class is in the list, an idle worker — with
motion detection not armed — transitions to Recording in that very
iteration, provided a frame is available to open the encoder with. -/
theorem C9_auto_record_on_objects (cv : CV) (cfg : Config) (cid : String)
    (inp : IterInput) (st : WorkerState) (f annotated : Image)
    (objs : List DetObj) (autoList : List String)
    (hr : inp.read_result = some f)
    (hm : st.motion_detection_enabled = false)
    (hrec : st.is_recording = false)
    (hoe : st.object_detection_enabled = true)
    (hop : st.object_detector_present = true)
    (hint : st.detection_interval ≤ inp.now - st.last_detection_time)
    (hdr : inp.detect_result = some (annotated, objs))
    (hauto : cfg.auto_record_on_objects = some autoList)
    (hmatch : objs.any (fun o => autoList.contains o.cls) = true)
    (hframe : frameForEncoder st inp.encoder_read ≠ none) :
    (runIteration cv cfg cid inp st).is_recording = true := by
  rw [runIteration_motion_off cv cfg cid inp st f hr hm,
    iterationTail_is_recording]
  have hobjs : objs.isEmpty = false := by
    cases objs with
    | nil => simp at hmatch
    | cons a l => rfl
  have hlist : autoList.isEmpty = false := by
    cases autoList with
    | nil =>
        rw [List.any_eq_true] at hmatch
        obtain ⟨o, hmem, hco⟩ := hmatch
        simp at hco
    | cons a l => rfl
  obtain ⟨fe, hfe⟩ := Option.ne_none_iff_exists'.mp hframe
  unfold objectDetectionStep
  rw [if_pos ⟨hoe, hop, hint⟩, hdr]
  dsimp only
  rw [if_neg (by rw [hobjs]; exact Bool.false_ne_true)]
  unfold autoRecordCheck
  rw [hauto]
  dsimp only
  rw [if_neg (by rw [hlist]; exact Bool.false_ne_true), if_pos hmatch,
    if_neg (by show ¬ ({ st with last_detection_time := inp.now }.is_recording = true); simp [hrec])]
  dsimp only
  have hfe2 : frameForEncoder
      { st with last_detection_time := inp.now, is_recording := true }
      inp.encoder_read = some fe := hfe
  rw [start_of_idle cfg cid inp.timestr inp.encoder_read
    { st with last_detection_time := inp.now } (by simp [hrec])]
  show (match frameForEncoder { st with last_detection_time := inp.now }
      inp.encoder_read with
    | none => { st with last_detection_time := inp.now }
    | some _ => startedState cfg cid inp.timestr
        { st with last_detection_time := inp.now }).is_recording = true
  rw [show frameForEncoder { st with last_detection_time := inp.now }
      inp.encoder_read = some fe from hfe]
  rfl

/-- Witness for C9: an idle worker with motion detection off and a
"person" detection while the allow-list is ["person"] starts recording in
that iteration. -/
theorem C9_auto_record_on_objects_witness :
    (runIteration cv0
        { defaultConfig with auto_record_on_objects := some ["person"] }
        "webcam"
        { inpCal with
            detect_result := some (blackImage, [⟨"person", 9/10⟩]) }
        { initState with
            object_detection_enabled := true
            object_detector_present := true
            output_frame := some brightImage }).is_recording = true := by
  refine C9_auto_record_on_objects cv0
    { defaultConfig with auto_record_on_objects := some ["person"] }
    "webcam"
    { inpCal with
        detect_result := some (blackImage, [⟨"person", 9/10⟩]) }
    { initState with
        object_detection_enabled := true
        object_detector_present := true
        output_frame := some brightImage }
    blackImage blackImage [⟨"person", 9/10⟩]
    ["person"] rfl rfl rfl rfl rfl ?_ rfl rfl (by decide)
    (fun hc => Option.noConfusion hc)
  show (1 : ℚ)/2 ≤ 10 - 0
  norm_num

/-- C7 counterexample: it is not true that no code path holds the frame
lock and the state lock simultaneously.  The manual start-recording route
(src/app/routes.py line 152) takes the state lock and then
start_recording_logic calls get_latest_frame (camera_worker.py line 349),
which acquires the frame lock on top of it; the run loop's two automatic
start sites do the same. -/
theorem C7_counterexample :
    ¬ (∀ nt ∈ allLockTraces, ∀ snap ∈ nt.2, holdsBoth snap = false) := by
  intro h
  have h2 := h ("start_recording_route",
      [[LockName.stateLock]]
        ++ start_recording_logic_trace [LockName.stateLock])
    (by decide) [LockName.frameLock, LockName.stateLock] (by decide)
  exact absurd h2 (by decide)

/-- C7 (amended): the frame lock and the state lock are held
simultaneously exactly in the start-recording paths — the run loop's
automatic starts (on motion and on auto-record objects) and the manual
start route — where get_latest_frame acquires the frame lock while the
state lock is already held; every snapshot of every other critical
section holds at most one of the two locks, and every offending snapshot
is precisely the frame lock taken on top of the state lock. -/
theorem C7_lock_discipline :
    allLockTraces.map (fun nt => (nt.1, nt.2.filter holdsBoth))
      = [ ("run_loop",
            [[LockName.frameLock, LockName.stateLock],
             [LockName.frameLock, LockName.stateLock]])
        , ("video_stream_get_latest_frame", [])
        , ("get_status_route", [])
        , ("start_recording_route",
            [[LockName.frameLock, LockName.stateLock]])
        , ("stop_recording_route", [])
        , ("toggle_motion_detection_route", [])
        , ("toggle_object_detection_route", [])
        , ("get_detection_stats_route", [])
        , ("stats_camera_stats", [])
        , ("worker_release", []) ] := by
  decide

/-- C8: get_latest_frame returns None before the first publish, and
afterwards a fresh copy of the referenced buffer whose contents equal the
published frame: the returned buffer is a different heap cell than the
worker's, mutating it leaves the stored frame unchanged, and a frame
published afterwards is the freshly supplied one, unaffected by the
consumer's mutation. -/
theorem C8_get_latest_frame_copies (fs : FrameStore) (dflt d2 dnew : Image) :
    (fs.out_ref = none →
      (fb_get fs dflt).1 = none ∧ (fb_get fs dflt).2 = fs) ∧
    (∀ i, fs.out_ref = some i → fb_wf fs →
      (fb_get fs dflt).1 = some fs.heap.length ∧
      fs.heap.length ≠ i ∧
      (fb_get fs dflt).2.heap.getD fs.heap.length dflt
        = fs.heap.getD i dflt ∧
      (fb_get fs dflt).2.out_ref = fs.out_ref ∧
      (fb_write (fb_get fs dflt).2 fs.heap.length d2).heap.getD i dflt
        = fs.heap.getD i dflt ∧
      (fb_publish (fb_write (fb_get fs dflt).2 fs.heap.length d2)
          dnew).heap.getD (fs.heap.length + 1) dflt = dnew ∧
      (fb_publish (fb_write (fb_get fs dflt).2 fs.heap.length d2)
          dnew).out_ref = some (fs.heap.length + 1)) := by
  constructor
  · intro h
    unfold fb_get
    rw [h]
    exact ⟨rfl, rfl⟩
  · intro i hi hwf
    have hlt : i < fs.heap.length := hwf i hi
    have hget : fb_get fs dflt
        = (some fs.heap.length,
           { fs with heap := fs.heap ++ [fs.heap.getD i dflt] }) := by
      unfold fb_get
      rw [hi]
    rw [hget]
    have hlen : ((fs.heap ++ [fs.heap.getD i dflt]).set fs.heap.length
        d2).length = fs.heap.length + 1 := by
      simp
    refine ⟨rfl, Nat.ne_of_gt hlt, ?_, rfl, ?_, ?_, ?_⟩
    · show (fs.heap ++ [fs.heap.getD i dflt]).getD fs.heap.length dflt
        = fs.heap.getD i dflt
      simp [List.getD]
    · show ((fs.heap ++ [fs.heap.getD i dflt]).set fs.heap.length
          d2).getD i dflt = fs.heap.getD i dflt
      simp [List.getD, List.getElem?_append, hlt]
    · show (((fs.heap ++ [fs.heap.getD i dflt]).set fs.heap.length d2)
          ++ [dnew]).getD (fs.heap.length + 1) dflt = dnew
      simp only [List.getD]
      simp only [List.set_append, List.getElem?_append, List.length_append,
        List.length_set]
      simp
      rw [List.getElem_append_right (by omega)]
      simp
    · show some ((fs.heap ++ [fs.heap.getD i dflt]).set
          fs.heap.length d2).length = some (fs.heap.length + 1)
      rw [hlen]

/-- Witness for C8: a store with one published frame hands out index 1 as
the copy of cell 0; overwriting cell 1 leaves cell 0 intact, and a later
publish carries the new frame. -/
theorem C8_get_latest_frame_copies_witness :
    (fb_get (fb_publish { heap := [], out_ref := none } brightImage)
        blackImage).1 = some 1 ∧
    (fb_write (fb_get (fb_publish { heap := [], out_ref := none }
          brightImage) blackImage).2 1 blackImage).heap.getD 0 blackImage
      = brightImage := by
  have hwf : fb_wf (fb_publish { heap := [], out_ref := none }
      brightImage) := by
    intro i hi
    simp [fb_publish] at hi ⊢
    omega
  obtain h := (C8_get_latest_frame_copies
    (fb_publish { heap := [], out_ref := none } brightImage)
    blackImage blackImage blackImage).2 0 rfl hwf
  exact ⟨h.1, h.2.2.2.2.1⟩
